import Mathlib

/-!
Verification of the MultiWOZ database query engine
(`convlab/modules/util/multiwoz/dbquery.py`).

The engine answers `query(domain, constraints, ignore_open=True)` over
in-memory per-domain collections of records.  Records are string-to-string
mappings (Python dicts); we embed them as association lists with first-match
lookup, which coincides with dict semantics since dict keys are distinct.

Python string primitives (`str.lower`, `str.strip`, `str.split`, `int(...)`)
are modelled character-by-character over `String.data` so that every
definition reduces inside the kernel; the data handled by this engine is
ASCII, so ASCII case folding and ASCII whitespace match the Python
behavior on all relevant inputs.

Python-level partiality (KeyError on `record[key]`, IndexError on
`val.split(':')[1]`, ValueError from `int(...)`) is made explicit with
`Option` / `Except`: the `try/except: continue` of the source becomes a
total wrapper mapping any `Except.error` to "constraint satisfied".

Two process-global dependencies of the source are injected as parameters,
following the spec's design notes: the Porter stemmer becomes an abstract
`stem : String → String`, and the `random` module becomes a draw sequence
`g : Nat → Nat` (the n-th call to the generator yields the raw value `g n`;
`random.choice xs` is `xs[g n % xs.length]` and `random.randint 1 9` is
`1 + g n % 9`).
-/

namespace DbQuery

/-- Python `str.lower()` on the ASCII range: lowercase every character. -/
def pyLower (s : String) : String :=
  String.mk (s.data.map Char.toLower)

/-- Python whitespace for `str.strip()`: space, tab, newline, carriage
return, vertical tab, form feed. -/
def isPySpace (c : Char) : Bool :=
  c = ' ' ∨ c = '\t' ∨ c = '\n' ∨ c = '\r' ∨ c.toNat = 11 ∨ c.toNat = 12

/-- Python `str.strip()`: drop whitespace from both ends. -/
def pyStrip (s : String) : String :=
  String.mk (((s.data.dropWhile isPySpace).reverse.dropWhile isPySpace).reverse)

/-- Python `s.split(sep)` for a one-character separator: split at every
occurrence; `"".split(sep) = [""]`. -/
def pySplit (s : String) (sep : Char) : List String :=
  (s.data.splitOnP (fun c => c = sep)).map String.mk

/-- Value of a decimal digit character, `none` otherwise. -/
def digit? (c : Char) : Option Nat :=
  if '0' ≤ c ∧ c ≤ '9' then some (c.toNat - 48) else none

/-- Accumulate the decimal value of a digit run; `none` on a non-digit. -/
def digitsAux (acc : Nat) : List Char → Option Nat
  | [] => some acc
  | c :: cs =>
    match digit? c with
    | some d => digitsAux (10 * acc + d) cs
    | none => none

/-- Decimal value of a non-empty all-digit character run. -/
def digitsVal? (cs : List Char) : Option Nat :=
  match cs with
  | [] => none
  | _ => digitsAux 0 cs

/-- Python `int(s)` on a decimal string: surrounding whitespace is stripped,
an optional single sign is allowed, then one or more digits; anything else
(modulo digit-group underscores, which no data here uses) is `none` where
Python raises `ValueError`. -/
def pyInt? (s : String) : Option Int :=
  match (pyStrip s).data with
  | [] => none
  | c :: cs =>
    if c = '-' then (digitsVal? cs).map (fun n => -(n : Int))
    else if c = '+' then (digitsVal? cs).map (fun n => (n : Int))
    else (digitsVal? (c :: cs)).map (fun n => (n : Int))

/-- A record: an ordered field-name-to-value mapping, as a Python dict of
strings.  Lookup is by exact key equality on the first matching entry. -/
abbrev Record := List (String × String)

/-- Exact-key lookup, modelling Python `record[key]` returning `none` where
Python raises `KeyError`. -/
def recordGet? (record : Record) (k : String) : Option String :=
  (record.find? (fun kv => kv.1 == k)).map (fun kv => kv.2)

/-- The taxi portion of the store: two option lists, as in `taxi_db.json`. -/
structure TaxiDB where
  taxi_colors : List String
  taxi_types : List String

/-- The domain store `dbs`, loaded once at startup.  Generic domains
(restaurant, hotel, attraction, train) are reached through `generic`;
police, hospital and taxi have dedicated collections as in the source.
Lookup of an unrecognized domain name is out of scope (the source would
raise `KeyError`; the spec flags it as an open question). -/
structure DB where
  generic : String → List Record
  police : List Record
  hospital : List Record
  taxi : TaxiDB

/-- A query result entry: either a stored record, or the synthesized taxi
record with fields `taxi_colors`, `taxi_types`, `taxi_phone`. -/
inductive Entity where
  | plain (fields : Record) : Entity
  | taxiRec (taxi_colors taxi_types : String) (taxi_phone : List Nat) : Entity
deriving DecidableEq

/-- The don't-care tokens tested on line 34 of the source, in source order.
The apostrophes of the Python literals are written as \x27. -/
def dontCareTokens : List String :=
  ["", "dont care", "not mentioned", "don\x27t care", "dontcare", "do n\x27t care"]

/-- Whether a constraint value is a don't-care token (line 34). -/
def isDontCare (val : String) : Bool :=
  dontCareTokens.contains val

/-- The time encoding of lines 42-43 and 47-48:
`int(s.split(':')[0]) * 100 + int(s.split(':')[1])`.  `none` where the
source raises (no second `:`-separated part, or a part not an integer). -/
def parseTime? (s : String) : Option Int :=
  match (pySplit s ':').get? 0, (pySplit s ':').get? 1 with
  | some h, some m =>
    match pyInt? h, pyInt? m with
    | some hv, some mv => some (hv * 100 + mv)
    | _, _ => none
  | _, _ => none

/-- The body of the `try` block (lines 38-56) for one constraint against one
record.  `Except.ok true` models `continue` (constraint satisfied),
`Except.ok false` models `break` (record excluded), `Except.error ()` models
a raised exception. -/
def checkBody (stem : String → String) (ignore_open : Bool) (record : Record)
    (key val : String) : Except Unit Bool :=
  let record_keys := record.map (fun kv => pyLower kv.1)
  if pyLower key ∉ record_keys ∧ stem key ∉ record_keys then
    Except.ok true
  else if key = "leaveAt" then
    match parseTime? val with
    | none => Except.error ()
    | some val1 =>
      match recordGet? record "leaveAt" with
      | none => Except.error ()
      | some rv =>
        match parseTime? rv with
        | none => Except.error ()
        | some val2 => Except.ok (decide (val1 ≤ val2))
  else if key = "arriveBy" then
    match parseTime? val with
    | none => Except.error ()
    | some val1 =>
      match recordGet? record "arriveBy" with
      | none => Except.error ()
      | some rv =>
        match parseTime? rv with
        | none => Except.error ()
        | some val2 => Except.ok (decide (val2 ≤ val1))
  else if ignore_open = true ∧ (key = "destination" ∨ key = "departure") then
    Except.ok true
  else
    match recordGet? record key with
    | none => Except.error ()
    | some rv => Except.ok (decide (pyStrip val = pyStrip rv))

/-- One constraint against one record, lines 33-58: don't-care values pass
(lines 34-35), and any exception from the `try` block is swallowed by
`except: continue` (lines 57-58), i.e. the constraint passes. -/
def satisfiesConstraint (stem : String → String) (ignore_open : Bool)
    (record : Record) (key val : String) : Bool :=
  if isDontCare val then true
  else
    match checkBody stem ignore_open record key val with
    | Except.ok b => b
    | Except.error _ => true

/-- A record survives the inner `for`-`else` loop iff no constraint `break`s,
i.e. every constraint is satisfied. -/
def matchesAll (stem : String → String) (ignore_open : Bool)
    (constraints : List (String × String)) (record : Record) : Bool :=
  constraints.all (fun kv => satisfiesConstraint stem ignore_open record kv.1 kv.2)

/-- `random.choice xs` under the injected draw sequence: element at index
`g i % xs.length` (the source's lists are non-empty; on an empty list the
source raises, here the default is returned). -/
def randChoice (g : Nat → Nat) (i : Nat) (xs : List String) : String :=
  xs.getD (g i % xs.length) ""

/-- The `taxi_phone` field: ten draws of `random.randint(1, 9)`, consuming
draws 2 through 11 of the injected sequence. -/
def taxiPhone (g : Nat → Nat) : List Nat :=
  (List.range 10).map (fun i => 1 + g (2 + i) % 9)

/-- `query(domain, constraints, ignore_open)`, lines 18-62 of the source:
taxi synthesizes one random record, police and hospital return their whole
collections; all other domains filter the stored collection by `matchesAll`
in store order. -/
def query (db : DB) (stem : String → String) (g : Nat → Nat) (domain : String)
    (constraints : List (String × String)) (ignore_open : Bool) : List Entity :=
  if domain = "taxi" then
    [Entity.taxiRec (randChoice g 0 db.taxi.taxi_colors)
      (randChoice g 1 db.taxi.taxi_types) (taxiPhone g)]
  else if domain = "police" then
    db.police.map Entity.plain
  else if domain = "hospital" then
    db.hospital.map Entity.plain
  else
    ((db.generic domain).filter
      (fun record => matchesAll stem ignore_open constraints record)).map Entity.plain

/-- A stand-in stemmer for concrete instances: lowercase the key (what the
Porter stemmer does to the keys appearing in the claims). -/
def stem0 : String → String := fun s => pyLower s

/-- The train fixture of the spec: two records differing in `leaveAt`. -/
def trainDB : DB where
  generic := fun d =>
    if d = "train" then
      [[("leaveAt", "08:00"), ("destination", "cambridge")],
       [("leaveAt", "09:30"), ("destination", "cambridge")]]
    else []
  police := []
  hospital := []
  taxi := { taxi_colors := [], taxi_types := [] }

/-- A concrete store for taxi instances: two colors, one vehicle type. -/
def taxiFixtureDB : DB where
  generic := fun _ => []
  police := []
  hospital := []
  taxi := { taxi_colors := ["black", "white"], taxi_types := ["toyota"] }

end DbQuery

namespace DbQuery

/-! ### Helper lemmas shared by several claims -/

/-- Every don't-care token fails the `"HH:MM"` parse (none contains `:`). -/
theorem dontCare_parseTime_none : ∀ v ∈ dontCareTokens, parseTime? v = none := by
  decide

/-- A value that parses as a time is not a don't-care token. -/
theorem parseTime_not_dontCare {v : String} {t : Int} (h : parseTime? v = some t) :
    isDontCare v = false := by
  cases hdc : isDontCare v with
  | false => rfl
  | true =>
    exfalso
    have hv : v ∈ dontCareTokens := by simpa [isDontCare] using hdc
    rw [dontCare_parseTime_none v hv] at h
    exact Option.noConfusion h

/-- A successful exact-key lookup implies the case-insensitive resolution of
lines 38-40 succeeds on the lowered key. -/
theorem resolution_mem {r : Record} {k rv : String} (h : recordGet? r k = some rv) :
    pyLower k ∈ r.map (fun kv => pyLower kv.1) := by
  unfold recordGet? at h
  obtain ⟨kv, hfind, hrv⟩ := Option.map_eq_some'.mp h
  have hmem := List.mem_of_find?_eq_some hfind
  have hk : kv.1 = k := by simpa using List.find?_some hfind
  rw [← hk]
  exact List.mem_map.mpr ⟨kv, hmem, rfl⟩

/-- The `leaveAt` branch (lines 41-45): with the record's `leaveAt` present
under the exact key and both times parsing, the constraint is satisfied iff
the record leaves no earlier than requested. -/
theorem satisfies_leaveAt (stem : String → String) (io : Bool) (r : Record)
    (v rv : String) (tv tr : Int)
    (h1 : recordGet? r "leaveAt" = some rv) (h2 : parseTime? v = some tv)
    (h3 : parseTime? rv = some tr) :
    satisfiesConstraint stem io r "leaveAt" v = decide (tv ≤ tr) := by
  have hdc := parseTime_not_dontCare h2
  have hmem := resolution_mem h1
  unfold satisfiesConstraint checkBody
  rw [hdc]
  simp only [Bool.false_eq_true, if_false]
  rw [if_neg (fun hn => hn.1 hmem), if_true]
  simp only [h2, h1, h3]

/-- The `arriveBy` branch (lines 46-50), symmetric to `satisfies_leaveAt`. -/
theorem satisfies_arriveBy (stem : String → String) (io : Bool) (r : Record)
    (v rv : String) (tv tr : Int)
    (h1 : recordGet? r "arriveBy" = some rv) (h2 : parseTime? v = some tv)
    (h3 : parseTime? rv = some tr) :
    satisfiesConstraint stem io r "arriveBy" v = decide (tr ≤ tv) := by
  have hdc := parseTime_not_dontCare h2
  have hmem := resolution_mem h1
  unfold satisfiesConstraint checkBody
  rw [hdc]
  simp only [Bool.false_eq_true, if_false]
  rw [if_neg (fun hn => hn.1 hmem),
    if_neg (show ¬("arriveBy" : String) = "leaveAt" by decide), if_true]
  simp only [h2, h1, h3]

/-- The default comparison branch (lines 54-56): with the field present under
the exact key and no earlier branch applying, the constraint is satisfied iff
the trimmed values are equal. -/
theorem satisfies_default (stem : String → String) (io : Bool) (r : Record)
    (key v rv : String) (hdc : isDontCare v = false)
    (h1 : key ≠ "leaveAt") (h2 : key ≠ "arriveBy")
    (h3 : ¬(io = true ∧ (key = "destination" ∨ key = "departure")))
    (h4 : recordGet? r key = some rv) :
    satisfiesConstraint stem io r key v = decide (pyStrip v = pyStrip rv) := by
  have hmem := resolution_mem h4
  unfold satisfiesConstraint checkBody
  rw [hdc]
  simp only [Bool.false_eq_true, if_false]
  rw [if_neg (fun hn => hn.1 hmem), if_neg h1, if_neg h2, if_neg h3]
  simp only [h4]

/-- When the case-insensitive resolution succeeds but no field carries the
exact key, every branch ends in a suppressed lookup failure (or an
unconditional pass), so the constraint is satisfied. -/
theorem satisfies_no_exact_field (stem : String → String) (io : Bool) (r : Record)
    (key v : String) (hnone : recordGet? r key = none)
    (hmem : pyLower key ∈ r.map (fun kv => pyLower kv.1)) :
    satisfiesConstraint stem io r key v = true := by
  unfold satisfiesConstraint
  cases hdc : isDontCare v with
  | true => simp
  | false =>
    simp only [Bool.false_eq_true, if_false]
    unfold checkBody
    rw [if_neg (fun hn => hn.1 hmem)]
    by_cases hk1 : key = "leaveAt"
    · subst hk1
      rw [if_pos rfl]
      cases hv : parseTime? v with
      | none => rfl
      | some tv => rw [hnone]
    · rw [if_neg hk1]
      by_cases hk2 : key = "arriveBy"
      · subst hk2
        rw [if_pos rfl]
        cases hv : parseTime? v with
        | none => rfl
        | some tv => rw [hnone]
      · rw [if_neg hk2]
        by_cases hio : io = true ∧ (key = "destination" ∨ key = "departure")
        · rw [if_pos hio]
        · rw [if_neg hio, hnone]

/-- With `ignore_open` true, a `destination` or `departure` constraint is
always satisfied: every branch reachable for these keys passes. -/
theorem satisfies_ignore_open (stem : String → String) (r : Record) (key v : String)
    (hk : key = "destination" ∨ key = "departure") :
    satisfiesConstraint stem true r key v = true := by
  unfold satisfiesConstraint
  cases hdc : isDontCare v with
  | true => simp
  | false =>
    simp only [Bool.false_eq_true, if_false]
    unfold checkBody
    by_cases hmem : pyLower key ∉ r.map (fun kv => pyLower kv.1) ∧
        stem key ∉ r.map (fun kv => pyLower kv.1)
    · rw [if_pos hmem]
    · have hk1 : key ≠ "leaveAt" := by rcases hk with rfl | rfl <;> decide
      have hk2 : key ≠ "arriveBy" := by rcases hk with rfl | rfl <;> decide
      rw [if_neg hmem, if_neg hk1, if_neg hk2, if_pos ⟨rfl, hk⟩]

/-- `random.choice` under the injected draw sequence picks an element of a
non-empty list. -/
theorem randChoice_mem (g : Nat → Nat) (i : Nat) {xs : List String} (h : xs ≠ []) :
    randChoice g i xs ∈ xs := by
  unfold randChoice
  have hlt : g i % xs.length < xs.length := Nat.mod_lt _ (List.length_pos.mpr h)
  rw [List.getD_eq_getElem?_getD, List.getElem?_eq_getElem hlt]
  exact List.getElem_mem hlt

end DbQuery

namespace DbQuery

/-! ### Claims -/

/-- C1: in the generic matching path a `leaveAt` constraint is satisfied by a
record iff the record's time, encoded as HOUR*100+MINUTE, is at least the
constraint's; `arriveBy` obeys the symmetric rule; and on the spec's train
fixture the constraint `("leaveAt", "08:30")` returns exactly the record
leaving at 09:30. -/
theorem C1_time_window_semantics :
    (∀ (stem : String → String) (io : Bool) (r : Record) (v rv : String) (tv tr : Int),
      recordGet? r "leaveAt" = some rv → parseTime? v = some tv → parseTime? rv = some tr →
      satisfiesConstraint stem io r "leaveAt" v = decide (tv ≤ tr))
    ∧ (∀ (stem : String → String) (io : Bool) (r : Record) (v rv : String) (tv tr : Int),
      recordGet? r "arriveBy" = some rv → parseTime? v = some tv → parseTime? rv = some tr →
      satisfiesConstraint stem io r "arriveBy" v = decide (tr ≤ tv))
    ∧ query trainDB stem0 (fun n => n) "train" [("leaveAt", "08:30")] true
      = [Entity.plain [("leaveAt", "09:30"), ("destination", "cambridge")]] :=
  ⟨satisfies_leaveAt, satisfies_arriveBy, by decide⟩

/-- C1 witness: the general rules applied to a record leaving at 08:00 under
constraint 08:30 (830 > 800, excluded) and a record arriving at 09:30 under
constraint 09:00 (930 > 900, excluded). -/
theorem C1_time_window_semantics_witness :
    satisfiesConstraint stem0 true [("leaveAt", "08:00")] "leaveAt" "08:30"
      = decide ((830 : Int) ≤ 800)
    ∧ satisfiesConstraint stem0 true [("arriveBy", "09:30")] "arriveBy" "09:00"
      = decide ((930 : Int) ≤ 900) :=
  ⟨C1_time_window_semantics.1 stem0 true [("leaveAt", "08:00")] "08:30" "08:00"
      830 800 rfl rfl rfl,
   C1_time_window_semantics.2.1 stem0 true [("arriveBy", "09:30")] "09:00" "09:30"
      900 930 rfl rfl rfl⟩

/-- C2 counterexample: the record `[("Area", "north")]` has a field equal to
the key `"area"` case-insensitively and its value differs from the
constraint value after trimming, yet the constraint is satisfied — the
claimed iff fails, because the value lookup uses the original key exactly
and the resulting failure is suppressed. -/
theorem C2_counterexample :
    pyLower "Area" = pyLower "area"
    ∧ satisfiesConstraint stem0 true [("Area", "north")] "area" "south" = true
    ∧ pyStrip "south" ≠ pyStrip "north" :=
  ⟨by decide, by decide, by decide⟩

/-- C2 (amended): field-name resolution is case-insensitive, but the default
comparison reads the record under the EXACT constraint key.  If a field with
exactly that name exists (and no earlier branch applies) the constraint is
satisfied iff the two values are equal after trimming, case-sensitively; if
the field matches only case-insensitively, the exact lookup fails and the
constraint is satisfied regardless of the values. -/
theorem C2_default_string_comparison :
    (∀ (stem : String → String) (io : Bool) (r : Record) (key v rv : String),
      isDontCare v = false → key ≠ "leaveAt" → key ≠ "arriveBy" →
      ¬(io = true ∧ (key = "destination" ∨ key = "departure")) →
      recordGet? r key = some rv →
      satisfiesConstraint stem io r key v = decide (pyStrip v = pyStrip rv))
    ∧ (∀ (stem : String → String) (io : Bool) (r : Record) (key v : String),
      recordGet? r key = none → pyLower key ∈ r.map (fun kv => pyLower kv.1) →
      satisfiesConstraint stem io r key v = true) :=
  ⟨satisfies_default, satisfies_no_exact_field⟩

/-- C2 witness: an exact-key field compared after trimming, and a
case-mismatched field that passes unconditionally. -/
theorem C2_default_string_comparison_witness :
    satisfiesConstraint stem0 true [("food", "chinese")] "food" " chinese "
      = decide (pyStrip " chinese " = pyStrip "chinese")
    ∧ satisfiesConstraint stem0 true [("Area", "north")] "area" "north" = true :=
  ⟨C2_default_string_comparison.1 stem0 true [("food", "chinese")] "food" " chinese "
      "chinese" (by decide) (by decide) (by decide) (by decide) rfl,
   C2_default_string_comparison.2 stem0 true [("Area", "north")] "area" "north"
      rfl (by decide)⟩

/-- C3: any exception raised inside the try block of the comparison steps is
swallowed (`except: continue`) and the constraint is treated as satisfied,
so the record is not excluded on that basis; `satisfiesConstraint` (and with
it `query`) is total, so no error reaches the caller. -/
theorem C3_error_suppression (stem : String → String) (io : Bool) (r : Record)
    (key v : String) (herr : checkBody stem io r key v = Except.error ()) :
    satisfiesConstraint stem io r key v = true := by
  unfold satisfiesConstraint
  cases hdc : isDontCare v with
  | true => simp
  | false => simp [herr]

/-- C3 witness: the record's `leaveAt` value `"0830"` has no colon, the time
parse raises, and the constraint is nevertheless satisfied. -/
theorem C3_error_suppression_witness :
    satisfiesConstraint stem0 true [("leaveAt", "0830")] "leaveAt" "08:30" = true :=
  C3_error_suppression stem0 true [("leaveAt", "0830")] "leaveAt" "08:30" rfl

/-- C4: appending a constraint whose value is a don't-care token never
changes the result of `query`, for every domain, constraint list and
`ignore_open` flag. -/
theorem C4_dontcare_no_effect (db : DB) (stem : String → String) (g : Nat → Nat)
    (domain : String) (cs : List (String × String)) (io : Bool) (k v : String)
    (hv : isDontCare v = true) :
    query db stem g domain (cs ++ [(k, v)]) io = query db stem g domain cs io := by
  have hsat : ∀ r : Record, satisfiesConstraint stem io r k v = true := by
    intro r
    unfold satisfiesConstraint
    simp [hv]
  have hm : ∀ r : Record,
      matchesAll stem io (cs ++ [(k, v)]) r = matchesAll stem io cs r := by
    intro r
    unfold matchesAll
    rw [List.all_append]
    simp [hsat r]
  unfold query
  split_ifs <;> simp [hm]

/-- C4 witness: appending `("leaveAt", "dontcare")` to a train query leaves
the result unchanged. -/
theorem C4_dontcare_no_effect_witness :
    query trainDB stem0 (fun n => n) "train"
        ([("destination", "cambridge")] ++ [("leaveAt", "dontcare")]) true
      = query trainDB stem0 (fun n => n) "train" [("destination", "cambridge")] true :=
  C4_dontcare_no_effect trainDB stem0 (fun n => n) "train" [("destination", "cambridge")]
    true "leaveAt" "dontcare" rfl

/-- C5: for the police and for the hospital domain, `query` returns the whole
stored collection unfiltered, for every constraint list and either value of
`ignore_open`. -/
theorem C5_police_hospital_passthrough (db : DB) (stem : String → String) (g : Nat → Nat)
    (cs : List (String × String)) (io : Bool) :
    query db stem g "police" cs io = db.police.map Entity.plain
    ∧ query db stem g "hospital" cs io = db.hospital.map Entity.plain := by
  constructor
  · unfold query
    rw [if_neg (show ¬("police" : String) = "taxi" by decide), if_pos rfl]
  · unfold query
    rw [if_neg (show ¬("hospital" : String) = "taxi" by decide),
      if_neg (show ¬("hospital" : String) = "police" by decide), if_pos rfl]

end DbQuery

namespace DbQuery

/-- C6: every taxi query returns exactly one synthesized record whose color
and type come from the store's option lists and whose phone is a 10-element
sequence of digits in [1,9]; under the injected draw sequence the color and
type are the determined `randChoice` values. -/
theorem C6_taxi_synthesis (db : DB) (stem : String → String) (g : Nat → Nat)
    (cs : List (String × String)) (io : Bool)
    (hc : db.taxi.taxi_colors ≠ []) (ht : db.taxi.taxi_types ≠ []) :
    ∃ c t p, query db stem g "taxi" cs io = [Entity.taxiRec c t p]
      ∧ c ∈ db.taxi.taxi_colors ∧ t ∈ db.taxi.taxi_types
      ∧ p.length = 10 ∧ (∀ x ∈ p, 1 ≤ x ∧ x ≤ 9)
      ∧ c = randChoice g 0 db.taxi.taxi_colors
      ∧ t = randChoice g 1 db.taxi.taxi_types := by
  refine ⟨randChoice g 0 db.taxi.taxi_colors, randChoice g 1 db.taxi.taxi_types,
    taxiPhone g, ?_, randChoice_mem g 0 hc, randChoice_mem g 1 ht, ?_, ?_, rfl, rfl⟩
  · unfold query
    rw [if_pos rfl]
  · unfold taxiPhone
    simp
  · intro x hx
    unfold taxiPhone at hx
    simp only [List.mem_map, List.mem_range] at hx
    obtain ⟨i, hi, rfl⟩ := hx
    refine ⟨Nat.le_add_right 1 _, ?_⟩
    have h9 : g (2 + i) % 9 < 9 := Nat.mod_lt _ (by decide)
    omega

/-- C6 witness: the taxi synthesis on a concrete two-color, one-type store
with the identity draw sequence. -/
theorem C6_taxi_synthesis_witness :
    ∃ c t p, query taxiFixtureDB stem0 (fun n => n) "taxi" [] true
        = [Entity.taxiRec c t p]
      ∧ c ∈ taxiFixtureDB.taxi.taxi_colors ∧ t ∈ taxiFixtureDB.taxi.taxi_types
      ∧ p.length = 10 ∧ (∀ x ∈ p, 1 ≤ x ∧ x ≤ 9)
      ∧ c = randChoice (fun n => n) 0 taxiFixtureDB.taxi.taxi_colors
      ∧ t = randChoice (fun n => n) 1 taxiFixtureDB.taxi.taxi_types :=
  C6_taxi_synthesis taxiFixtureDB stem0 (fun n => n) [] true (by decide) (by decide)

/-- C7: with `ignore_open` true a `destination` or `departure` constraint
never excludes any record, for any value; with `ignore_open` false and the
field present under the exact key, it is the default trimmed case-sensitive
string comparison. -/
theorem C7_ignore_open_fields :
    (∀ (stem : String → String) (r : Record) (v : String),
      satisfiesConstraint stem true r "destination" v = true
      ∧ satisfiesConstraint stem true r "departure" v = true)
    ∧ (∀ (stem : String → String) (r : Record) (v rv : String), isDontCare v = false →
      recordGet? r "destination" = some rv →
      satisfiesConstraint stem false r "destination" v = decide (pyStrip v = pyStrip rv))
    ∧ (∀ (stem : String → String) (r : Record) (v rv : String), isDontCare v = false →
      recordGet? r "departure" = some rv →
      satisfiesConstraint stem false r "departure" v = decide (pyStrip v = pyStrip rv)) := by
  refine ⟨fun stem r v => ⟨satisfies_ignore_open stem r "destination" v (Or.inl rfl),
    satisfies_ignore_open stem r "departure" v (Or.inr rfl)⟩, ?_, ?_⟩
  · intro stem r v rv hdc h4
    exact satisfies_default stem false r "destination" v rv hdc (by decide) (by decide)
      (fun hn => Bool.false_ne_true hn.1) h4
  · intro stem r v rv hdc h4
    exact satisfies_default stem false r "departure" v rv hdc (by decide) (by decide)
      (fun hn => Bool.false_ne_true hn.1) h4

/-- C7 witness: with `ignore_open` false the same constraints reduce to the
trimmed comparison of the stored values. -/
theorem C7_ignore_open_fields_witness :
    satisfiesConstraint stem0 false [("destination", "london")] "destination" "cambridge"
      = decide (pyStrip "cambridge" = pyStrip "london")
    ∧ satisfiesConstraint stem0 false [("departure", "ely")] "departure" "ely"
      = decide (pyStrip "ely" = pyStrip "ely") :=
  ⟨C7_ignore_open_fields.2.1 stem0 [("destination", "london")] "cambridge" "london" rfl rfl,
   C7_ignore_open_fields.2.2 stem0 [("departure", "ely")] "ely" "ely" rfl rfl⟩

/-- C8: for every non-special domain the result of `query` is a subsequence
of the stored collection in the store's original order: no reordering, no
duplication, every returned record from the store, and empty is allowed. -/
theorem C8_result_is_sublist (db : DB) (stem : String → String) (g : Nat → Nat)
    (domain : String) (cs : List (String × String)) (io : Bool)
    (h1 : domain ≠ "taxi") (h2 : domain ≠ "police") (h3 : domain ≠ "hospital") :
    List.Sublist (query db stem g domain cs io) ((db.generic domain).map Entity.plain) := by
  unfold query
  rw [if_neg h1, if_neg h2, if_neg h3]
  exact List.Sublist.map Entity.plain (List.filter_sublist _)

/-- C8 witness: the filtered train query is a subsequence of the fixture. -/
theorem C8_result_is_sublist_witness :
    List.Sublist (query trainDB stem0 (fun n => n) "train" [("leaveAt", "08:30")] true)
      ((trainDB.generic "train").map Entity.plain) :=
  C8_result_is_sublist trainDB stem0 (fun n => n) "train" [("leaveAt", "08:30")] true
    (by decide) (by decide) (by decide)

/-- C9: for every non-special domain an empty constraint list returns the
full stored collection, unchanged and in order. -/
theorem C9_empty_constraints_full (db : DB) (stem : String → String) (g : Nat → Nat)
    (domain : String) (io : Bool)
    (h1 : domain ≠ "taxi") (h2 : domain ≠ "police") (h3 : domain ≠ "hospital") :
    query db stem g domain [] io = (db.generic domain).map Entity.plain := by
  unfold query
  rw [if_neg h1, if_neg h2, if_neg h3]
  congr 1
  exact List.filter_eq_self.mpr (fun r _ => rfl)

/-- C9 witness: the empty-constraint train query returns both fixture
records. -/
theorem C9_empty_constraints_full_witness :
    query trainDB stem0 (fun n => n) "train" [] true
      = (trainDB.generic "train").map Entity.plain :=
  C9_empty_constraints_full trainDB stem0 (fun n => n) "train" true
    (by decide) (by decide) (by decide)

/-- C10: the time-window comparison fires only on the exact, case-sensitive
keys `leaveAt` and `arriveBy`.  A lowercase variant such as `leaveat` still
resolves case-insensitively against the record's field, the value lookup
under the original key then fails, the failure is suppressed, and the
constraint is satisfied by every record regardless of the times. -/
theorem C10_time_keys_case_sensitive :
    (∀ (stem : String → String) (io : Bool) (r : Record) (v rv : String),
      recordGet? r "leaveAt" = some rv → recordGet? r "leaveat" = none →
      satisfiesConstraint stem io r "leaveat" v = true)
    ∧ (∀ (stem : String → String) (io : Bool) (r : Record) (v rv : String),
      recordGet? r "arriveBy" = some rv → recordGet? r "arriveby" = none →
      satisfiesConstraint stem io r "arriveby" v = true) := by
  constructor
  · intro stem io r v rv h1 h2
    apply satisfies_no_exact_field stem io r "leaveat" v h2
    rw [show pyLower "leaveat" = pyLower "leaveAt" by decide]
    exact resolution_mem h1
  · intro stem io r v rv h1 h2
    apply satisfies_no_exact_field stem io r "arriveby" v h2
    rw [show pyLower "arriveby" = pyLower "arriveBy" by decide]
    exact resolution_mem h1

/-- C10 witness: records leaving at 08:00 and arriving by 08:00 satisfy a
`leaveat` constraint of 23:59 and an `arriveby` constraint of 00:01, times
that the exact-key comparisons would reject. -/
theorem C10_time_keys_case_sensitive_witness :
    satisfiesConstraint stem0 true [("leaveAt", "08:00")] "leaveat" "23:59" = true
    ∧ satisfiesConstraint stem0 true [("arriveBy", "08:00")] "arriveby" "00:01" = true :=
  ⟨C10_time_keys_case_sensitive.1 stem0 true [("leaveAt", "08:00")] "23:59" "08:00" rfl rfl,
   C10_time_keys_case_sensitive.2 stem0 true [("arriveBy", "08:00")] "00:01" "08:00" rfl rfl⟩

end DbQuery
